import Mathlib

/-!
Verification of the XVIZ stream loader
(`src/modules/core/src/loaders/xviz-stream-loader.js`).

The loader's pure window-planning arithmetic (`updateSocketRequestParams`),
its `seek` orchestration, its websocket message dispatch (`_onWSMessage`)
and its connection-retry classification are embedded as executable Lean
functions.  External collaborators (the `XvizStreamBuffer`, the base
playback class and the transport) are modelled abstractly: the buffer as a
record of operations over an arbitrary state type, side effects as an
explicit effect list.  Timestamps, durations and close codes are `Int`;
JavaScript truthiness of an optional number (`undefined`, `null`, `0` are
falsy) is modelled by `Option Int` with `getD 0 ≠ 0`.
-/

namespace XVIZStreamLoader

/-- The connection request parameters built by `getSocketRequestParams`:
`timestamp` is the configured initial timestamp (absent when the option was
not given), `duration` the total log duration, `bufferLength` the optional
buffer half-width. -/
structure RequestParams where
  timestamp : Option Int
  duration : Int
  bufferLength : Option Int
deriving DecidableEq, Repr

/-- The loaded time range reported by `streamBuffer.getLoadedTimeRange()`. -/
structure TimeRange where
  start : Int
  stop : Int
deriving DecidableEq, Repr

/-- Result of `updateSocketRequestParams`: the fields of the returned object
that the loader reads (`timestamp`, `duration`, `chunkSize`).  The spread
`...initalRequestParams` keeps `timestamp` at its old optional value in the
early-return branch, hence `Option Int`. -/
structure UpdatedParams where
  timestamp : Option Int
  duration : Int
  chunkSize : Int
deriving DecidableEq, Repr

/-- The clamp of the window end against the already loaded range,
lines 99–109 of the source: if `start` falls inside the loaded range the
window is emptied (`end = start`); else if `end` falls inside the loaded
range the window is turned into a backward fetch (`end = loadedRange.start`).
The first guard is `loadedRange.start <= start && loadedRange.end > start`,
the second `loadedRange.start < end && loadedRange.end >= end`. -/
def clampEndToLoaded (loadedRange : Option TimeRange) (start0 end0 : Int) : Int :=
  match loadedRange with
  | none => end0
  | some lr =>
    if lr.start ≤ start0 ∧ start0 < lr.stop then start0
    else if lr.start < end0 ∧ end0 ≤ lr.stop then lr.start
    else end0

/-- `updateSocketRequestParams(timestamp, initalRequestParams, streamBuffer)`
(lines 81–120).  `tw` is the global `getXvizSettings().TIME_WINDOW`;
`loadedRange` is what `streamBuffer.getLoadedTimeRange()` returns.
`timestamp = none` models a non-finite (`undefined`) argument. -/
def updateSocketRequestParams (tw : Int) (timestamp : Option Int)
    (p : RequestParams) (loadedRange : Option TimeRange) : UpdatedParams :=
  let chunkSize :=
    if p.bufferLength.getD 0 ≠ 0 then min p.duration (p.bufferLength.getD 0 + tw)
    else p.duration
  if timestamp = none ∧ p.timestamp = none then
    { timestamp := p.timestamp, duration := chunkSize, chunkSize := chunkSize }
  else
    let start0 := timestamp.getD (p.timestamp.getD 0)
    let end0 := start0 + chunkSize
    let end1 := clampEndToLoaded loadedRange start0 end0
    let se :=
      if p.duration ≠ 0 ∧ p.timestamp.getD 0 ≠ 0 then
        (max start0 (p.timestamp.getD 0), min end1 (p.timestamp.getD 0 + p.duration))
      else (start0, end1)
    { timestamp := some se.1, duration := max 0 (se.2 - se.1), chunkSize := chunkSize }

/-- The external `StreamSynchronizer` collaborator, as far as the loader
touches it: its session start time and its cached reverse-time index
(`_streamsByReverseTime`), which the loader sets to `null` (`none`). -/
structure StreamSynchronizer where
  startTime : Int
  streamsByReverseTime : Option Int
deriving DecidableEq, Repr

/-- The operations of the external `XvizStreamBuffer` collaborator that the
loader uses, over an arbitrary buffer state `B`.  `valueOf` is the version
token, `insert` takes an abstract timeslice payload, `getStreams` returns an
abstract handle to the visible stream set. -/
structure BufferOps (B : Type) where
  valueOf : B → Int
  insert : Int → B → B
  getLoadedTimeRange : B → Option TimeRange
  setCurrentTime : Int → B → B
  getStreams : B → Int

/-- The loader state touched by `seek` and `_onWSMessage`: the socket flag
(`this.socket` recorded or not), `lastRequest`, the accepted-metadata flag
(`this.get('metadata')` truthy), the synchronizer, the published
`streams` handle and the buffer. -/
structure LoaderState (B : Type) where
  socket : Bool
  lastRequest : Option UpdatedParams
  metadata : Bool
  logSynchronizer : Option StreamSynchronizer
  streams : Int
  buffer : B
deriving DecidableEq, Repr

/-- Observable side effects of the loader: store publishes, emitted events,
and outgoing requests (a `play` directive or a close/connect cycle). -/
inductive Effect where
  | setStreams (v : Int)
  | setSynchronizer (startTime : Int)
  | emitReady
  | emitUpdate
  | emitFinish
  | emitError
  | sendPlay (p : UpdatedParams)
  | closeSocket
  | connectSocket
deriving DecidableEq, Repr

/-- An effect that issues (or re-issues) a fetch: a live `play` directive or
a connection teardown/re-establishment. -/
def Effect.isRequest : Effect → Bool
  | .sendPlay _ => true
  | .closeSocket => true
  | .connectSocket => true
  | _ => false

/-- A stream-set republish effect. -/
def Effect.isSetStreams : Effect → Bool
  | .setStreams _ => true
  | _ => false

/-- Holds when an effect list contains no fetch request (no `play`, no
close/connect). -/
def noRequestEffects (effs : List Effect) : Bool :=
  effs.all (fun e => !e.isRequest)

/-- The buffer pruning done at the start of `seek` (lines 202–207): advance
the buffer's current time, then republish the visible stream set only when
the version token changed. -/
def pruneStep {B : Type} (ops : BufferOps B) (t : Int) (s : LoaderState B) :
    LoaderState B × List Effect :=
  let oldVersion := ops.valueOf s.buffer
  let buf1 := ops.setCurrentTime t s.buffer
  if ops.valueOf buf1 ≠ oldVersion then
    ({s with buffer := buf1, streams := ops.getStreams buf1},
     [Effect.setStreams (ops.getStreams buf1)])
  else
    ({s with buffer := buf1}, [])

/-- The within-range test of `seek` (lines 215–221):
`bufferStartTime >= lastRequest.timestamp && timestamp <= lastRequest.timestamp
+ lastRequest.chunkSize`.  A missing `lastRequest.timestamp` makes both
JavaScript comparisons false. -/
def withinRange (bufferStartTime t : Int) (lr : UpdatedParams) : Bool :=
  match lr.timestamp with
  | some ts => decide (bufferStartTime ≥ ts) && decide (t ≤ ts + lr.chunkSize)
  | none => false

/-- `seek(timestamp)` (lines 195–243).  The base playback contract's
clamping/rounding (`getCurrentTime`) is an external collaborator and is
modelled as the identity, so `t` is the clamped timestamp.  `cancelPrevious`
is the constant `false` of line 224.  When no socket is open, `close()` is a
no-op (the socket is already `null`) and `connect()` is recorded as an
effect. -/
def seek {B : Type} (ops : BufferOps B) (tw : Int) (p : RequestParams)
    (t : Int) (s : LoaderState B) : LoaderState B × List Effect :=
  let bufferStartTime := t - tw
  let pr := pruneStep ops t s
  match pr.1.lastRequest with
  | none => pr
  | some lr =>
    if withinRange bufferStartTime t lr then pr
    else
      let params := updateSocketRequestParams tw (some bufferStartTime) p
        (ops.getLoadedTimeRange pr.1.buffer)
      if params.duration = 0 then pr
      else
        let s2 := {pr.1 with lastRequest := some {params with timestamp := some bufferStartTime}}
        if s2.socket then (s2, pr.2 ++ [Effect.sendPlay params])
        else ({s2 with socket := false}, pr.2 ++ [Effect.connectSocket])

/-- Inbound protocol messages, dispatched by `_onWSMessage` on their `type`
tag.  A timeslice carries an abstract payload consumed by the buffer's
`insert`. -/
inductive XVIZMessage where
  | metadata (startTime : Int)
  | timeslice (payload : Int)
  | done
  | other
deriving DecidableEq, Repr

/-- `_onWSMessage` (lines 324–363).  Metadata is first-wins: when metadata
was already accepted the message is ignored.  Otherwise the synchronizer is
initialized, the first window is planned and sent as `play`, metadata is
published and `ready` emitted.  A timeslice is inserted into the buffer; only
when the version token changed are the streams republished and the
synchronizer's cached reverse-time index cleared; `update` is emitted
unconditionally. -/
def onWSMessage {B : Type} (ops : BufferOps B) (tw : Int) (p : RequestParams)
    (msg : XVIZMessage) (s : LoaderState B) : LoaderState B × List Effect :=
  match msg with
  | .metadata startTime =>
    if s.metadata then (s, [])
    else
      let params := updateSocketRequestParams tw (some startTime) p
        (ops.getLoadedTimeRange s.buffer)
      ({s with logSynchronizer := some ⟨startTime, none⟩,
               lastRequest := some params,
               metadata := true},
       [Effect.setSynchronizer startTime, Effect.sendPlay params, Effect.emitReady])
  | .timeslice payload =>
    let oldVersion := ops.valueOf s.buffer
    let buf1 := ops.insert payload s.buffer
    if ops.valueOf buf1 ≠ oldVersion then
      ({s with buffer := buf1, streams := ops.getStreams buf1,
               logSynchronizer := s.logSynchronizer.map
                 (fun sy => {sy with streamsByReverseTime := none})},
       [Effect.setStreams (ops.getStreams buf1), Effect.emitUpdate])
    else
      ({s with buffer := buf1}, [Effect.emitUpdate])
  | .done => (s, [Effect.emitFinish])
  | .other => (s, [Effect.emitError])

/-- Dispatch of a whole inbound message sequence, in arrival order,
accumulating effects. -/
def onWSMessages {B : Type} (ops : BufferOps B) (tw : Int) (p : RequestParams) :
    List XVIZMessage → LoaderState B → LoaderState B × List Effect
  | [], s => (s, [])
  | m :: rest, s =>
    let r1 := onWSMessage ops tw p m s
    let r2 := onWSMessages ops tw p rest r1.1
    (r2.1, r1.2 ++ r2.2)

/-- The abnormal-closure classification of `connect` (line 291):
`event.code > 1000 && event.code !== 1005`. -/
def isAbnormalClosure (code : Int) : Bool :=
  decide (code > 1000) && decide (code ≠ 1005)

/-- The retry decision of the per-attempt failure handler (lines 289–297):
`retry()` is invoked when the closure is abnormal **or** no socket was ever
recorded (`!this.socket`). -/
def shouldRetry (code : Int) (socketRecorded : Bool) : Bool :=
  isAbnormalClosure code || !socketRecorded

/-- Outcome of one `connect()` call: how many reconnection attempts (retries
after the initial attempt) were made, how many per-attempt `error` events the
failure handler emitted, how many terminal `error` events the final rejection
emitted, and whether a socket ended up recorded (`Open`) — `false` is the
`Disconnected` state. -/
structure ConnectResult where
  reconnections : Nat
  attemptErrors : Nat
  terminalErrors : Nat
  socketOpen : Bool
deriving DecidableEq, Repr

/-- Modelled from the spec: the retry driver around `connect` (the
`PromiseRetry` collaborator is outside the repository).  Per §4.3 retries use
a capped count; each attempt either opens a socket (resolving the promise) or
fails with a close code.  On failure the in-source handler emits `error` and,
when `shouldRetry` holds, consumes one retry; exhausting the cap rejects the
whole chain, whose final `catch` emits one terminal `error` and leaves the
loader `Disconnected`.  `attemptOutcome n` is `none` when attempt `n`
succeeds, `some code` when it closes with `code`; failures never record a
socket. -/
def connectLoop (attemptOutcome : Nat → Option Int) :
    Nat → Nat → Nat → Nat → ConnectResult
  | retriesLeft, attemptIdx, recons, errs =>
    match attemptOutcome attemptIdx with
    | none => ⟨recons, errs, 0, true⟩
    | some code =>
      if shouldRetry code false then
        match retriesLeft with
        | 0 => ⟨recons, errs + 1, 1, false⟩
        | r + 1 => connectLoop attemptOutcome r (attemptIdx + 1) (recons + 1) (errs + 1)
      else ⟨recons, errs + 1, 0, false⟩

/-- One `connect()` call under the retry policy `{retries}` of the
constructor's `retrySettings`. -/
def connect (attemptOutcome : Nat → Option Int) (retries : Nat) : ConnectResult :=
  connectLoop attemptOutcome retries 0 0 0

/-- A concrete buffer for witnesses: never holds data, never changes its
version token. -/
def constBuffer : BufferOps Int where
  valueOf := fun b => b
  insert := fun _ b => b
  getLoadedTimeRange := fun _ => none
  setCurrentTime := fun _ b => b
  getStreams := fun _ => 0

/-- A concrete buffer for witnesses whose every mutation bumps the version
token. -/
def bumpBuffer : BufferOps Int where
  valueOf := fun b => b
  insert := fun _ b => b + 1
  getLoadedTimeRange := fun _ => none
  setCurrentTime := fun _ b => b + 1
  getStreams := fun b => b

/-- An `update` event effect. -/
def Effect.isUpdate : Effect → Bool
  | .emitUpdate => true
  | _ => false

/-- A `ready` event effect. -/
def Effect.isReady : Effect → Bool
  | .emitReady => true
  | _ => false

/-- A synchronizer-initialization effect. -/
def Effect.isSetSync : Effect → Bool
  | .setSynchronizer _ => true
  | _ => false

/-- A metadata protocol message. -/
def XVIZMessage.isMetadata : XVIZMessage → Bool
  | .metadata _ => true
  | _ => false

/-- The request parameters of the spec's concrete scenario:
`sessionStart = 100`, `totalDuration = 30`, `bufferLength = 10`
(with `TIME_WINDOW = 2` passed separately). -/
def scenarioParams : RequestParams :=
  { timestamp := some 100, duration := 30, bufferLength := some 10 }

/-- The loaded range `[100, 112)` of the spec's concrete scenario. -/
def scenarioLoadedRange : TimeRange := { start := 100, stop := 112 }

/-- A loader state after the first window `{timestamp: 100, chunkSize: 12}`
was requested on an open connection, with nothing buffered yet. -/
def scenarioState : LoaderState Int :=
  { socket := true,
    lastRequest := some { timestamp := some 100, duration := 12, chunkSize := 12 },
    metadata := true,
    logSynchronizer := some { startTime := 100, streamsByReverseTime := none },
    streams := 0,
    buffer := 0 }

/-- The scenario state with a populated reverse-time cache in the
synchronizer. -/
def cachedSyncState : LoaderState Int :=
  { scenarioState with logSynchronizer := some { startTime := 100, streamsByReverseTime := some 7 } }

/-- The scenario state before any request was ever issued. -/
def noRequestState : LoaderState Int :=
  { scenarioState with lastRequest := none }

/-- A fresh loader state: no metadata accepted, nothing requested, no
synchronizer. -/
def freshState : LoaderState Int :=
  { socket := true, lastRequest := none, metadata := false,
    logSynchronizer := none, streams := 0, buffer := 0 }

/-! ## Helper lemmas about the pruning step and `seek` -/

theorem pruneStep_lastRequest {B : Type} (ops : BufferOps B) (t : Int) (s : LoaderState B) :
    (pruneStep ops t s).1.lastRequest = s.lastRequest := by
  simp only [pruneStep]
  split <;> rfl

theorem pruneStep_socket {B : Type} (ops : BufferOps B) (t : Int) (s : LoaderState B) :
    (pruneStep ops t s).1.socket = s.socket := by
  simp only [pruneStep]
  split <;> rfl

theorem pruneStep_metadata {B : Type} (ops : BufferOps B) (t : Int) (s : LoaderState B) :
    (pruneStep ops t s).1.metadata = s.metadata := by
  simp only [pruneStep]
  split <;> rfl

theorem pruneStep_logSynchronizer {B : Type} (ops : BufferOps B) (t : Int) (s : LoaderState B) :
    (pruneStep ops t s).1.logSynchronizer = s.logSynchronizer := by
  simp only [pruneStep]
  split <;> rfl

theorem pruneStep_buffer {B : Type} (ops : BufferOps B) (t : Int) (s : LoaderState B) :
    (pruneStep ops t s).1.buffer = ops.setCurrentTime t s.buffer := by
  simp only [pruneStep]
  split <;> rfl

theorem pruneStep_of_ne {B : Type} (ops : BufferOps B) (t : Int) (s : LoaderState B)
    (h : ops.valueOf (ops.setCurrentTime t s.buffer) ≠ ops.valueOf s.buffer) :
    pruneStep ops t s =
      ({s with buffer := ops.setCurrentTime t s.buffer,
               streams := ops.getStreams (ops.setCurrentTime t s.buffer)},
       [Effect.setStreams (ops.getStreams (ops.setCurrentTime t s.buffer))]) := by
  simp only [pruneStep, if_pos h]

theorem pruneStep_of_eq {B : Type} (ops : BufferOps B) (t : Int) (s : LoaderState B)
    (h : ops.valueOf (ops.setCurrentTime t s.buffer) = ops.valueOf s.buffer) :
    pruneStep ops t s = ({s with buffer := ops.setCurrentTime t s.buffer}, []) := by
  simp only [pruneStep]
  rw [if_neg]
  simp [h]

theorem pruneStep_effects_no_request {B : Type} (ops : BufferOps B) (t : Int)
    (s : LoaderState B) : ∀ e ∈ (pruneStep ops t s).2, e.isRequest = false := by
  simp only [pruneStep]
  split <;> simp [Effect.isRequest]

theorem pruneStep_noRequestEffects {B : Type} (ops : BufferOps B) (t : Int)
    (s : LoaderState B) : noRequestEffects (pruneStep ops t s).2 = true := by
  simp only [pruneStep]
  split <;> rfl

theorem seek_eq_prune_of_duration_zero {B : Type} (ops : BufferOps B) (tw : Int)
    (p : RequestParams) (t : Int) (s : LoaderState B)
    (h : (updateSocketRequestParams tw (some (t - tw)) p
        (ops.getLoadedTimeRange (ops.setCurrentTime t s.buffer))).duration = 0) :
    seek ops tw p t s = pruneStep ops t s := by
  simp only [seek, pruneStep_lastRequest, pruneStep_buffer]
  cases hlr : s.lastRequest with
  | none => rfl
  | some lr => simp [h]

theorem seek_of_no_lastRequest {B : Type} (ops : BufferOps B) (tw : Int)
    (p : RequestParams) (t : Int) (s : LoaderState B) (h : s.lastRequest = none) :
    seek ops tw p t s = pruneStep ops t s := by
  simp only [seek, pruneStep_lastRequest, h]

theorem seek_buffer {B : Type} (ops : BufferOps B) (tw : Int) (p : RequestParams)
    (t : Int) (s : LoaderState B) :
    (seek ops tw p t s).1.buffer = ops.setCurrentTime t s.buffer := by
  simp only [seek]
  split
  · exact pruneStep_buffer ops t s
  · split
    · exact pruneStep_buffer ops t s
    · split
      · exact pruneStep_buffer ops t s
      · split
        · exact pruneStep_buffer ops t s
        · exact pruneStep_buffer ops t s

theorem seek_socket {B : Type} (ops : BufferOps B) (tw : Int) (p : RequestParams)
    (t : Int) (s : LoaderState B) :
    (seek ops tw p t s).1.socket = s.socket := by
  simp only [seek]
  split
  · exact pruneStep_socket ops t s
  · split
    · exact pruneStep_socket ops t s
    · split
      · exact pruneStep_socket ops t s
      · split
        · exact pruneStep_socket ops t s
        · rename_i hsock
          simp only [Bool.not_eq_true] at hsock
          rw [← pruneStep_socket ops t s]
          exact hsock.symm

theorem seek_streams {B : Type} (ops : BufferOps B) (tw : Int) (p : RequestParams)
    (t : Int) (s : LoaderState B) :
    (seek ops tw p t s).1.streams = (pruneStep ops t s).1.streams := by
  simp only [seek]
  split
  · rfl
  · split
    · rfl
    · split
      · rfl
      · split
        · rfl
        · rfl

theorem seek_metadata {B : Type} (ops : BufferOps B) (tw : Int) (p : RequestParams)
    (t : Int) (s : LoaderState B) :
    (seek ops tw p t s).1.metadata = s.metadata := by
  simp only [seek]
  split
  · exact pruneStep_metadata ops t s
  · split
    · exact pruneStep_metadata ops t s
    · split
      · exact pruneStep_metadata ops t s
      · split
        · exact pruneStep_metadata ops t s
        · exact pruneStep_metadata ops t s

theorem seek_logSynchronizer {B : Type} (ops : BufferOps B) (tw : Int) (p : RequestParams)
    (t : Int) (s : LoaderState B) :
    (seek ops tw p t s).1.logSynchronizer = s.logSynchronizer := by
  simp only [seek]
  split
  · exact pruneStep_logSynchronizer ops t s
  · split
    · exact pruneStep_logSynchronizer ops t s
    · split
      · exact pruneStep_logSynchronizer ops t s
      · split
        · exact pruneStep_logSynchronizer ops t s
        · exact pruneStep_logSynchronizer ops t s

theorem seek_setStreams_any {B : Type} (ops : BufferOps B) (tw : Int) (p : RequestParams)
    (t : Int) (s : LoaderState B) :
    (seek ops tw p t s).2.any Effect.isSetStreams =
      (pruneStep ops t s).2.any Effect.isSetStreams := by
  simp only [seek]
  split
  · rfl
  · split
    · rfl
    · split
      · rfl
      · split
        · simp [List.any_append, Effect.isSetStreams]
        · simp [List.any_append, Effect.isSetStreams]

theorem seek_within_eq_prune {B : Type} (ops : BufferOps B) (tw : Int) (p : RequestParams)
    (t : Int) (s : LoaderState B) (lr : UpdatedParams) (ts : Int)
    (hlr : s.lastRequest = some lr) (hts : lr.timestamp = some ts)
    (hl : ts + tw ≤ t) (hr : t ≤ ts + lr.chunkSize) :
    seek ops tw p t s = pruneStep ops t s := by
  have hw : withinRange (t - tw) t lr = true := by
    simp only [withinRange, hts, Bool.and_eq_true, decide_eq_true_eq]
    omega
  simp only [seek, pruneStep_lastRequest, hlr, hw, if_true]

theorem onWSMessage_metadata_flag {B : Type} (ops : BufferOps B) (tw : Int)
    (p : RequestParams) (m : XVIZMessage) (s : LoaderState B) :
    (onWSMessage ops tw p m s).1.metadata = (s.metadata || m.isMetadata) := by
  cases m with
  | metadata st =>
    by_cases h : s.metadata <;> simp [onWSMessage, XVIZMessage.isMetadata, h]
  | timeslice payload =>
    simp only [onWSMessage, XVIZMessage.isMetadata, Bool.or_false]
    split <;> rfl
  | done => simp [onWSMessage, XVIZMessage.isMetadata]
  | other => simp [onWSMessage, XVIZMessage.isMetadata]

theorem onWSMessages_no_ready_of_metadata {B : Type} (ops : BufferOps B) (tw : Int)
    (p : RequestParams) (msgs : List XVIZMessage) (s : LoaderState B)
    (h : s.metadata = true) :
    (onWSMessages ops tw p msgs s).2.countP Effect.isReady = 0 ∧
    (onWSMessages ops tw p msgs s).2.countP Effect.isSetSync = 0 ∧
    (onWSMessages ops tw p msgs s).1.metadata = true := by
  induction msgs generalizing s with
  | nil => simpa [onWSMessages] using h
  | cons m rest ih =>
    have hflag : (onWSMessage ops tw p m s).1.metadata = true := by
      rw [onWSMessage_metadata_flag, h, Bool.true_or]
    have hm : (onWSMessage ops tw p m s).2.countP Effect.isReady = 0 ∧
        (onWSMessage ops tw p m s).2.countP Effect.isSetSync = 0 := by
      cases m with
      | metadata st => simp [onWSMessage, h]
      | timeslice payload =>
        simp only [onWSMessage]
        split <;> simp [Effect.isReady, Effect.isSetSync]
      | done => simp [onWSMessage, Effect.isReady, Effect.isSetSync]
      | other => simp [onWSMessage, Effect.isReady, Effect.isSetSync]
    have hrest := ih (onWSMessage ops tw p m s).1 hflag
    refine ⟨?_, ?_, hrest.2.2⟩
    · show ((onWSMessage ops tw p m s).2 ++
        (onWSMessages ops tw p rest (onWSMessage ops tw p m s).1).2).countP Effect.isReady = 0
      rw [List.countP_append, hm.1, hrest.1]
    · show ((onWSMessage ops tw p m s).2 ++
        (onWSMessages ops tw p rest (onWSMessage ops tw p m s).1).2).countP Effect.isSetSync = 0
      rw [List.countP_append, hm.2, hrest.2.1]

theorem onWSMessages_ready_once {B : Type} (ops : BufferOps B) (tw : Int)
    (p : RequestParams) (msgs : List XVIZMessage) (s : LoaderState B)
    (h : s.metadata = false) (hany : msgs.any XVIZMessage.isMetadata = true) :
    (onWSMessages ops tw p msgs s).2.countP Effect.isReady = 1 ∧
    (onWSMessages ops tw p msgs s).2.countP Effect.isSetSync = 1 := by
  induction msgs generalizing s with
  | nil => simp at hany
  | cons m rest ih =>
    cases m with
    | metadata st =>
      have e : onWSMessage ops tw p (.metadata st) s =
          ({s with logSynchronizer := some ⟨st, none⟩,
                   lastRequest := some (updateSocketRequestParams tw (some st) p
                     (ops.getLoadedTimeRange s.buffer)),
                   metadata := true},
           [Effect.setSynchronizer st,
            Effect.sendPlay (updateSocketRequestParams tw (some st) p
              (ops.getLoadedTimeRange s.buffer)),
            Effect.emitReady]) := by
        simp [onWSMessage, h]
      have hrest := onWSMessages_no_ready_of_metadata ops tw p rest
        (onWSMessage ops tw p (.metadata st) s).1 (by rw [e])
      refine ⟨?_, ?_⟩
      · show ((onWSMessage ops tw p (.metadata st) s).2 ++
          (onWSMessages ops tw p rest (onWSMessage ops tw p (.metadata st) s).1).2).countP
            Effect.isReady = 1
        rw [List.countP_append, hrest.1, e]
        simp [List.countP_cons, Effect.isReady]
      · show ((onWSMessage ops tw p (.metadata st) s).2 ++
          (onWSMessages ops tw p rest (onWSMessage ops tw p (.metadata st) s).1).2).countP
            Effect.isSetSync = 1
        rw [List.countP_append, hrest.2.1, e]
        simp [List.countP_cons, Effect.isSetSync]
    | timeslice payload =>
      have hflag : (onWSMessage ops tw p (.timeslice payload) s).1.metadata = false := by
        rw [onWSMessage_metadata_flag, h]
        rfl
      have hany' : rest.any XVIZMessage.isMetadata = true := by
        simpa [XVIZMessage.isMetadata] using hany
      have hm : (onWSMessage ops tw p (.timeslice payload) s).2.countP Effect.isReady = 0 ∧
          (onWSMessage ops tw p (.timeslice payload) s).2.countP Effect.isSetSync = 0 := by
        simp only [onWSMessage]
        split <;> simp [Effect.isReady, Effect.isSetSync]
      have hrest := ih (onWSMessage ops tw p (.timeslice payload) s).1 hflag hany'
      refine ⟨?_, ?_⟩
      · show ((onWSMessage ops tw p (.timeslice payload) s).2 ++
          (onWSMessages ops tw p rest (onWSMessage ops tw p (.timeslice payload) s).1).2).countP
            Effect.isReady = 1
        rw [List.countP_append, hm.1, hrest.1]
      · show ((onWSMessage ops tw p (.timeslice payload) s).2 ++
          (onWSMessages ops tw p rest (onWSMessage ops tw p (.timeslice payload) s).1).2).countP
            Effect.isSetSync = 1
        rw [List.countP_append, hm.2, hrest.2]
    | done =>
      have hflag : (onWSMessage ops tw p .done s).1.metadata = false := by
        rw [onWSMessage_metadata_flag, h]
        rfl
      have hany' : rest.any XVIZMessage.isMetadata = true := by
        simpa [XVIZMessage.isMetadata] using hany
      have hrest := ih (onWSMessage ops tw p .done s).1 hflag hany'
      refine ⟨?_, ?_⟩
      · show ((onWSMessage ops tw p .done s).2 ++
          (onWSMessages ops tw p rest (onWSMessage ops tw p .done s).1).2).countP
            Effect.isReady = 1
        rw [List.countP_append, hrest.1]
        simp [onWSMessage, Effect.isReady]
      · show ((onWSMessage ops tw p .done s).2 ++
          (onWSMessages ops tw p rest (onWSMessage ops tw p .done s).1).2).countP
            Effect.isSetSync = 1
        rw [List.countP_append, hrest.2]
        simp [onWSMessage, Effect.isSetSync]
    | other =>
      have hflag : (onWSMessage ops tw p .other s).1.metadata = false := by
        rw [onWSMessage_metadata_flag, h]
        rfl
      have hany' : rest.any XVIZMessage.isMetadata = true := by
        simpa [XVIZMessage.isMetadata] using hany
      have hrest := ih (onWSMessage ops tw p .other s).1 hflag hany'
      refine ⟨?_, ?_⟩
      · show ((onWSMessage ops tw p .other s).2 ++
          (onWSMessages ops tw p rest (onWSMessage ops tw p .other s).1).2).countP
            Effect.isReady = 1
        rw [List.countP_append, hrest.1]
        simp [onWSMessage, Effect.isReady]
      · show ((onWSMessage ops tw p .other s).2 ++
          (onWSMessages ops tw p rest (onWSMessage ops tw p .other s).1).2).countP
            Effect.isSetSync = 1
        rw [List.countP_append, hrest.2]
        simp [onWSMessage, Effect.isSetSync]

/-! ## The claims -/

/-- Claim C1: on the spec's concrete scenario (`bufferLength = 10`,
`TIME_WINDOW = 2`, `totalDuration = 30`, `sessionStart = 100`, loaded range
`[100, 112)`), the window planner computes `chunkSize = min(30, 12) = 12`;
`planWindow(105)` returns duration `0` because `105` lies inside the loaded
range, and `planWindow(113)` returns timestamp `113` and duration `12`
(window end `125`) because the first clamp requires `start < loadedRange.end`
and `113 < 112` fails. -/
theorem claim_C1_window_clamp_scenario :
    (updateSocketRequestParams 2 (some 105) scenarioParams (some scenarioLoadedRange)).chunkSize
      = min 30 12 ∧
    (updateSocketRequestParams 2 (some 105) scenarioParams (some scenarioLoadedRange)).duration
      = 0 ∧
    (updateSocketRequestParams 2 (some 113) scenarioParams (some scenarioLoadedRange)).timestamp
      = some 113 ∧
    (updateSocketRequestParams 2 (some 113) scenarioParams (some scenarioLoadedRange)).duration
      = 12 := by
  refine ⟨?_, ?_, ?_, ?_⟩ <;> decide

/-- Claim C2 counterexample: in `scenarioState` the last request has
`timestamp = 100` and `chunkSize = 12`, so with `TIME_WINDOW = 2` the
claim's interval `[lastTs, lastTs + chunkSize - TIME_WINDOW]` is
`[100, 110]` and `t1 = t2 = 100` lies inside it; yet `seek(100)` followed by
`seek(100)` issues one `play` directive, not zero, because the code's
within-range test needs `t - TIME_WINDOW ≥ lastTs`, which fails at
`t = 100`. -/
theorem claim_C2_counterexample :
    (seek constBuffer 2 scenarioParams 100 scenarioState).2 ++
      (seek constBuffer 2 scenarioParams 100
        (seek constBuffer 2 scenarioParams 100 scenarioState).1).2 =
      [Effect.sendPlay { timestamp := some 100, duration := 10, chunkSize := 12 }] := by
  decide

/-- Claim C3 counterexample: with `sessionStart = 100` and `totalDuration = 30`
the claimed containment fails at target `t = 1000`: the planner returns the
window `{timestamp: 1000, duration: 0}` whose start `1000` lies outside
`[100, 130]`, because the session-bound clamp lowers only the end, never the
start, of the window. -/
theorem claim_C3_counterexample :
    (updateSocketRequestParams 2 (some 1000) scenarioParams none).timestamp = some 1000 ∧
    ¬(1000 + (updateSocketRequestParams 2 (some 1000) scenarioParams none).duration
        ≤ 100 + 30) := by
  refine ⟨?_, ?_⟩ <;> decide

/-- Claim C2 amended: seeks are idempotent on the interval
`[lastRequest.timestamp + TIME_WINDOW, lastRequest.timestamp + chunkSize]`
(not the claimed
`[lastRequest.timestamp, lastRequest.timestamp + chunkSize - TIME_WINDOW]`):
for any two timestamps `t1, t2` inside it, `seek(t1)` followed by `seek(t2)`
issues zero additional fetch requests — no `play` directive and no
close/connect — and leaves `lastRequest` unchanged. -/
theorem claim_C2_amended_idempotent_seek {B : Type} (ops : BufferOps B) (tw : Int)
    (p : RequestParams) (s : LoaderState B) (lr : UpdatedParams) (ts t1 t2 : Int)
    (hlr : s.lastRequest = some lr) (hts : lr.timestamp = some ts)
    (h1l : ts + tw ≤ t1) (h1r : t1 ≤ ts + lr.chunkSize)
    (h2l : ts + tw ≤ t2) (h2r : t2 ≤ ts + lr.chunkSize) :
    noRequestEffects (seek ops tw p t1 s).2 = true ∧
    (seek ops tw p t1 s).1.lastRequest = s.lastRequest ∧
    noRequestEffects (seek ops tw p t2 (seek ops tw p t1 s).1).2 = true := by
  have e1 : seek ops tw p t1 s = pruneStep ops t1 s :=
    seek_within_eq_prune ops tw p t1 s lr ts hlr hts h1l h1r
  have hlr1 : (seek ops tw p t1 s).1.lastRequest = some lr := by
    rw [e1, pruneStep_lastRequest, hlr]
  have e2 : seek ops tw p t2 (seek ops tw p t1 s).1
      = pruneStep ops t2 (seek ops tw p t1 s).1 :=
    seek_within_eq_prune ops tw p t2 _ lr ts hlr1 hts h2l h2r
  refine ⟨?_, ?_, ?_⟩
  · rw [e1]
    exact pruneStep_noRequestEffects ops t1 s
  · rw [e1, pruneStep_lastRequest]
  · rw [e2]
    exact pruneStep_noRequestEffects ops t2 _

/-- Witness for the amended C2: `t1 = 105` and `t2 = 108` lie inside
`[102, 112]` and the two successive seeks from `scenarioState` issue no
fetch and keep `lastRequest`. -/
theorem claim_C2_amended_idempotent_seek_witness :
    noRequestEffects (seek constBuffer 2 scenarioParams 105 scenarioState).2 = true ∧
    (seek constBuffer 2 scenarioParams 105 scenarioState).1.lastRequest
      = scenarioState.lastRequest ∧
    noRequestEffects (seek constBuffer 2 scenarioParams 108
        (seek constBuffer 2 scenarioParams 105 scenarioState).1).2 = true :=
  claim_C2_amended_idempotent_seek constBuffer 2 scenarioParams scenarioState
    { timestamp := some 100, duration := 12, chunkSize := 12 } 100 105 108
    rfl rfl (by decide) (by decide) (by decide) (by decide)

/-- Claim C3 amended: the session-bound containment holds for every target
timestamp `t` not beyond the session end: when the session bounds are set
(`sessionStart = ts0` truthy and `totalDuration > 0`) and
`t ≤ sessionStart + totalDuration`, the planned window starts at or after
`sessionStart` and ends at or before `sessionStart + totalDuration`. -/
theorem claim_C3_amended_session_bounds (tw : Int) (p : RequestParams)
    (loadedRange : Option TimeRange) (t ts0 : Int)
    (hts : p.timestamp = some ts0) (hts0 : ts0 ≠ 0) (hdur : 0 < p.duration)
    (ht : t ≤ ts0 + p.duration) :
    (updateSocketRequestParams tw (some t) p loadedRange).timestamp ≠ none ∧
    ts0 ≤ (updateSocketRequestParams tw (some t) p loadedRange).timestamp.getD 0 ∧
    (updateSocketRequestParams tw (some t) p loadedRange).timestamp.getD 0
      + (updateSocketRequestParams tw (some t) p loadedRange).duration
      ≤ ts0 + p.duration := by
  have hd : p.duration ≠ 0 := by omega
  simp only [updateSocketRequestParams, hts, Option.getD_some]
  have hfalse : ¬((some t : Option Int) = none ∧ (some ts0 : Option Int) = none) := by simp
  rw [if_neg hfalse, if_pos ⟨hd, hts0⟩]
  refine ⟨by simp, ?_, ?_⟩
  · simp only [Option.getD_some]
    exact le_max_right _ _
  · simp only [Option.getD_some, max_def, min_def]
    split_ifs <;> omega

/-- Witness for the amended C3: at `t = 113` inside the session `[100, 130]`
the planned window `[113, 125]` is contained in the session bounds. -/
theorem claim_C3_amended_session_bounds_witness :
    (updateSocketRequestParams 2 (some 113) scenarioParams none).timestamp ≠ none ∧
    (100:Int) ≤ (updateSocketRequestParams 2 (some 113) scenarioParams none).timestamp.getD 0 ∧
    (updateSocketRequestParams 2 (some 113) scenarioParams none).timestamp.getD 0
      + (updateSocketRequestParams 2 (some 113) scenarioParams none).duration
      ≤ 100 + 30 :=
  claim_C3_amended_session_bounds 2 scenarioParams none 113 100 rfl
    (by decide) (by decide) (by decide)

/-- Claim C4 counterexample: with a buffer whose insert leaves the version
token unchanged, dispatching a timeslice leaves the synchronizer's cached
reverse-time index (`some 7`) intact — the clearing statement sits inside
the version-changed guard (lines 349–352), so it is not performed after
*every* insert as the claim states. -/
theorem claim_C4_counterexample :
    (onWSMessage constBuffer 2 scenarioParams (.timeslice 5) cachedSyncState).1.logSynchronizer
      = some { startTime := 100, streamsByReverseTime := some 7 } := by
  decide

/-- Claim C4 amended: the synchronizer's cached reverse-time index is
cleared after exactly those timeslice inserts that change the buffer's
version token; an insert that leaves the version token unchanged leaves the
cached index untouched. -/
theorem claim_C4_amended_cache_invalidation {B : Type} (ops : BufferOps B) (tw : Int)
    (p : RequestParams) (payload : Int) (s : LoaderState B) :
    (ops.valueOf (ops.insert payload s.buffer) ≠ ops.valueOf s.buffer →
      (onWSMessage ops tw p (.timeslice payload) s).1.logSynchronizer =
        s.logSynchronizer.map (fun sy => { sy with streamsByReverseTime := none })) ∧
    (ops.valueOf (ops.insert payload s.buffer) = ops.valueOf s.buffer →
      (onWSMessage ops tw p (.timeslice payload) s).1.logSynchronizer
        = s.logSynchronizer) := by
  constructor
  · intro h
    simp only [onWSMessage]
    rw [if_pos h]
  · intro h
    simp only [onWSMessage]
    rw [if_neg (not_not_intro h)]

/-- Witness for the amended C4: a version-bumping insert clears the cached
index `some 7` to `none`. -/
theorem claim_C4_amended_cache_invalidation_witness :
    bumpBuffer.valueOf (bumpBuffer.insert 5 cachedSyncState.buffer)
        ≠ bumpBuffer.valueOf cachedSyncState.buffer ∧
    (onWSMessage bumpBuffer 2 scenarioParams (.timeslice 5) cachedSyncState).1.logSynchronizer
      = some { startTime := 100, streamsByReverseTime := none } := by
  refine ⟨by decide, ?_⟩
  rw [(claim_C4_amended_cache_invalidation bumpBuffer 2 scenarioParams 5 cachedSyncState).1
    (by decide)]
  decide

/-- Claim C5: dispatching a timeslice emits exactly one `update` event
unconditionally; when the insertion leaves the buffer's version token
unchanged the published streams state is untouched and no stream-set
republish happens, and when the version token changes the stream set is
republished. -/
theorem claim_C5_version_gated_republish {B : Type} (ops : BufferOps B) (tw : Int)
    (p : RequestParams) (payload : Int) (s : LoaderState B) :
    ((onWSMessage ops tw p (.timeslice payload) s).2.countP Effect.isUpdate = 1) ∧
    (ops.valueOf (ops.insert payload s.buffer) = ops.valueOf s.buffer →
      (onWSMessage ops tw p (.timeslice payload) s).1.streams = s.streams ∧
      (onWSMessage ops tw p (.timeslice payload) s).2 = [Effect.emitUpdate]) ∧
    (ops.valueOf (ops.insert payload s.buffer) ≠ ops.valueOf s.buffer →
      (onWSMessage ops tw p (.timeslice payload) s).2 =
        [Effect.setStreams (ops.getStreams (ops.insert payload s.buffer)),
         Effect.emitUpdate]) := by
  by_cases h : ops.valueOf (ops.insert payload s.buffer) = ops.valueOf s.buffer
  · have e : onWSMessage ops tw p (.timeslice payload) s =
        ({s with buffer := ops.insert payload s.buffer}, [Effect.emitUpdate]) := by
      simp only [onWSMessage]
      rw [if_neg (not_not_intro h)]
    rw [e]
    exact ⟨by simp [List.countP_cons, Effect.isUpdate], fun _ => ⟨rfl, rfl⟩,
      fun hne => absurd h hne⟩
  · have e : onWSMessage ops tw p (.timeslice payload) s =
        ({s with buffer := ops.insert payload s.buffer,
                 streams := ops.getStreams (ops.insert payload s.buffer),
                 logSynchronizer := s.logSynchronizer.map
                   (fun sy => { sy with streamsByReverseTime := none })},
         [Effect.setStreams (ops.getStreams (ops.insert payload s.buffer)),
          Effect.emitUpdate]) := by
      simp only [onWSMessage]
      rw [if_pos h]
    rw [e]
    exact ⟨by simp [List.countP_cons, Effect.isUpdate, Effect.isSetStreams],
      fun heq => absurd heq h, fun _ => rfl⟩

/-- Witness for C5: a version-preserving insert emits exactly one `update`
and keeps the published streams; a version-bumping insert republishes. -/
theorem claim_C5_version_gated_republish_witness :
    (onWSMessage constBuffer 2 scenarioParams (.timeslice 5) scenarioState).2.countP
        Effect.isUpdate = 1 ∧
    (onWSMessage constBuffer 2 scenarioParams (.timeslice 5) scenarioState).1.streams
      = scenarioState.streams ∧
    (onWSMessage bumpBuffer 2 scenarioParams (.timeslice 5) scenarioState).2 =
      [Effect.setStreams 1, Effect.emitUpdate] := by
  have h1 := claim_C5_version_gated_republish constBuffer 2 scenarioParams 5 scenarioState
  have h2 := claim_C5_version_gated_republish bumpBuffer 2 scenarioParams 5 scenarioState
  refine ⟨h1.1, (h1.2.1 rfl).1, ?_⟩
  rw [h2.2.2 (by decide)]
  decide

/-- Claim C7: whenever the window planner returns duration `0` during `seek`
(evaluated, as in the code, against the buffer already pruned to the seek
time), the seek issues no `play` directive, performs no close/connect, and
leaves `lastRequest` (and the socket) unchanged. -/
theorem claim_C7_zero_duration_never_sent {B : Type} (ops : BufferOps B) (tw : Int)
    (p : RequestParams) (t : Int) (s : LoaderState B)
    (h : (updateSocketRequestParams tw (some (t - tw)) p
        (ops.getLoadedTimeRange (ops.setCurrentTime t s.buffer))).duration = 0) :
    (seek ops tw p t s).1.lastRequest = s.lastRequest ∧
    (seek ops tw p t s).1.socket = s.socket ∧
    noRequestEffects (seek ops tw p t s).2 = true := by
  rw [seek_eq_prune_of_duration_zero ops tw p t s h]
  exact ⟨pruneStep_lastRequest ops t s, pruneStep_socket ops t s,
    pruneStep_noRequestEffects ops t s⟩

/-- Witness for C7: seeking to `150` from `scenarioState` (session
`[100, 130]`) makes the planner return duration `0`, and the seek sends
nothing and leaves `lastRequest` unchanged. -/
theorem claim_C7_zero_duration_never_sent_witness :
    (updateSocketRequestParams 2 (some (150 - 2)) scenarioParams
        (constBuffer.getLoadedTimeRange
          (constBuffer.setCurrentTime 150 scenarioState.buffer))).duration = 0 ∧
    (seek constBuffer 2 scenarioParams 150 scenarioState).1.lastRequest
      = scenarioState.lastRequest ∧
    (seek constBuffer 2 scenarioParams 150 scenarioState).1.socket
      = scenarioState.socket ∧
    noRequestEffects (seek constBuffer 2 scenarioParams 150 scenarioState).2 = true := by
  refine ⟨by decide, ?_⟩
  exact claim_C7_zero_duration_never_sent constBuffer 2 scenarioParams 150 scenarioState
    (by decide)

/-- Claim C8 counterexample: a clean closure (code `1000`) on an attempt that
never recorded a socket *does* trigger a retry (the `|| !this.socket` of
line 294), refuting the claim's clause that a clean closure never triggers
an automatic retry. -/
theorem claim_C8_counterexample : shouldRetry 1000 false = true := by decide

/-- Claim C8 amended: the failure handler retries exactly when the close
code is abnormal (greater than `1000`, the normal-closure code, and not
equal to `1005`, the reserved no-status code) or no socket was ever
recorded; a clean closure (code `1000`) after the socket was recorded
(`Open` reached) does not trigger a retry. -/
theorem claim_C8_amended_retry_classification :
    (∀ (code : Int) (socketRecorded : Bool),
      shouldRetry code socketRecorded = true ↔
        ((code > 1000 ∧ code ≠ 1005) ∨ socketRecorded = false)) ∧
    shouldRetry 1000 true = false := by
  refine ⟨?_, by decide⟩
  intro code sock
  cases sock <;> simp [shouldRetry, isAbnormalClosure]

/-- Claim C9: with `retryAttempts = 3` and a transport whose every attempt
closes abnormally (code `1006`), `connect` performs the initial attempt plus
exactly `3` reconnection attempts, each failed attempt emits an `error`
(4 in total), exactly one terminal `error` is emitted, and the loader is
left `Disconnected` (no socket recorded, the loop returns with no further
attempts). -/
theorem claim_C9_retry_bound :
    connect (fun _ => some 1006) 3 =
      { reconnections := 3, attemptErrors := 4, terminalErrors := 1,
        socketOpen := false } := by
  decide

/-- Claim C6: metadata handling is idempotent first-wins — for any inbound
message sequence containing at least two metadata messages, dispatched from
a loader state that has not yet accepted metadata, exactly one `ready` event
is emitted and the synchronizer is initialized exactly once; and once
metadata is accepted (any state `s'` with the flag set), a later metadata
message leaves the whole loader state unchanged and sends nothing. -/
theorem claim_C6_metadata_idempotent {B : Type} (ops : BufferOps B) (tw : Int)
    (p : RequestParams) (msgs : List XVIZMessage) (s s' : LoaderState B) (st : Int)
    (h : s.metadata = false) (h2 : 2 ≤ msgs.countP XVIZMessage.isMetadata)
    (h' : s'.metadata = true) :
    ((onWSMessages ops tw p msgs s).2.countP Effect.isReady = 1 ∧
     (onWSMessages ops tw p msgs s).2.countP Effect.isSetSync = 1) ∧
    onWSMessage ops tw p (.metadata st) s' = (s', []) := by
  have hpos : 0 < msgs.countP XVIZMessage.isMetadata := by omega
  have hany : msgs.any XVIZMessage.isMetadata = true := by
    rcases List.countP_pos_iff.mp hpos with ⟨a, ha, hpa⟩
    exact List.any_eq_true.mpr ⟨a, ha, hpa⟩
  refine ⟨onWSMessages_ready_once ops tw p msgs s h hany, ?_⟩
  simp [onWSMessage, h']

/-- Witness for C6: two metadata messages from a fresh state produce exactly
one `ready` and one synchronizer initialization, and a metadata message
dispatched after acceptance is a strict no-op. -/
theorem claim_C6_metadata_idempotent_witness :
    ((onWSMessages constBuffer 2 scenarioParams
        [XVIZMessage.metadata 100, XVIZMessage.metadata 100] freshState).2.countP
        Effect.isReady = 1 ∧
     (onWSMessages constBuffer 2 scenarioParams
        [XVIZMessage.metadata 100, XVIZMessage.metadata 100] freshState).2.countP
        Effect.isSetSync = 1) ∧
    onWSMessage constBuffer 2 scenarioParams (.metadata 200) scenarioState
      = (scenarioState, []) :=
  claim_C6_metadata_idempotent constBuffer 2 scenarioParams
    [XVIZMessage.metadata 100, XVIZMessage.metadata 100] freshState scenarioState 200
    rfl (by decide) rfl

/-- Claim C10: every `seek` advances the buffer's current-time marker
(pruning) and republishes the visible stream set exactly when the buffer's
version token changed; when no request has ever been issued
(`lastRequest = null`) the seek stops right after the pruning step:
`lastRequest` stays `null`, the socket, metadata and synchronizer are
untouched, no message is sent, and the only possible effect is the
version-gated stream republish. -/
theorem claim_C10_seek_prunes_and_null_request {B : Type} (ops : BufferOps B)
    (tw : Int) (p : RequestParams) (t : Int) (s : LoaderState B) :
    ((seek ops tw p t s).1.buffer = ops.setCurrentTime t s.buffer) ∧
    ((seek ops tw p t s).2.any Effect.isSetStreams = true ↔
      ops.valueOf (ops.setCurrentTime t s.buffer) ≠ ops.valueOf s.buffer) ∧
    (s.lastRequest = none →
      (seek ops tw p t s).1.lastRequest = none ∧
      (seek ops tw p t s).1.socket = s.socket ∧
      (seek ops tw p t s).1.metadata = s.metadata ∧
      (seek ops tw p t s).1.logSynchronizer = s.logSynchronizer ∧
      noRequestEffects (seek ops tw p t s).2 = true ∧
      (ops.valueOf (ops.setCurrentTime t s.buffer) = ops.valueOf s.buffer →
        (seek ops tw p t s).1.streams = s.streams ∧ (seek ops tw p t s).2 = []) ∧
      (ops.valueOf (ops.setCurrentTime t s.buffer) ≠ ops.valueOf s.buffer →
        (seek ops tw p t s).2 =
          [Effect.setStreams (ops.getStreams (ops.setCurrentTime t s.buffer))])) := by
  refine ⟨seek_buffer ops tw p t s, ?_, ?_⟩
  · rw [seek_setStreams_any]
    by_cases h : ops.valueOf (ops.setCurrentTime t s.buffer) = ops.valueOf s.buffer
    · rw [pruneStep_of_eq ops t s h]
      simp [h]
    · rw [pruneStep_of_ne ops t s h]
      simp [Effect.isSetStreams, h]
  · intro hnone
    have e := seek_of_no_lastRequest ops tw p t s hnone
    rw [e]
    refine ⟨?_, pruneStep_socket ops t s, pruneStep_metadata ops t s,
      pruneStep_logSynchronizer ops t s, pruneStep_noRequestEffects ops t s, ?_, ?_⟩
    · rw [pruneStep_lastRequest, hnone]
    · intro h
      rw [pruneStep_of_eq ops t s h]
      exact ⟨rfl, rfl⟩
    · intro h
      rw [pruneStep_of_ne ops t s h]

/-- Witness for C10: a seek from `noRequestState` (no request ever issued,
version unchanged by pruning) prunes the buffer, keeps `lastRequest` null
and produces no effects. -/
theorem claim_C10_seek_prunes_and_null_request_witness :
    (seek constBuffer 2 scenarioParams 100 noRequestState).1.buffer
      = constBuffer.setCurrentTime 100 noRequestState.buffer ∧
    (seek constBuffer 2 scenarioParams 100 noRequestState).1.lastRequest = none ∧
    noRequestEffects (seek constBuffer 2 scenarioParams 100 noRequestState).2 = true ∧
    (seek constBuffer 2 scenarioParams 100 noRequestState).2 = [] := by
  have h := claim_C10_seek_prunes_and_null_request constBuffer 2 scenarioParams 100
    noRequestState
  have h3 := h.2.2 rfl
  exact ⟨h.1, h3.1, h3.2.2.2.2.1, (h3.2.2.2.2.2.1 rfl).2⟩

end XVIZStreamLoader
